import Mathlib

/-!
Shallow embedding of `watermark.py` (image-watermark-tool): an EXIF-date
watermark tool.  Pure helpers (`calculate_position`, `parse_color`,
`get_exif_date`) are translated directly; the batch orchestrator
`process_directory` is embedded by passing the file-system and library
effects explicitly through an `FS` record.  Python strings are modelled as
Lean `String`, Python `int` as `Int`, Python `//` as `Int.fdiv` (floor
division), exceptions as `Option`/`Except`/`Bool` outcomes.
-/

namespace Watermark

/-- Python `str.lower()` restricted to ASCII, which is all the tool uses
(file extensions and color names). -/
def pyLower (s : String) : String :=
  String.mk (s.toList.map Char.toLower)

/-- Python `str.endswith(t)`. -/
def pyEndsWith (s t : String) : Bool :=
  t.toList.isSuffixOf s.toList

/-- Python `str.startswith(t)` for a one-character pattern. -/
def pyStartsWithChar (s : String) (c : Char) : Bool :=
  s.toList.head? = some c

/-- Helper for Python `str.split()`: collect maximal runs of
non-whitespace characters; `acc` is the current run, reversed. -/
def wordsAux : List Char → List Char → List (List Char)
  | [], acc => if acc.isEmpty then [] else [acc.reverse]
  | c :: cs, acc =>
    if c.isWhitespace then
      if acc.isEmpty then wordsAux cs [] else acc.reverse :: wordsAux cs []
    else wordsAux cs (c :: acc)

/-- Python `str.split()` with no argument: split on whitespace runs,
discarding empty pieces. -/
def pySplit (s : String) : List String :=
  (wordsAux s.toList []).map String.mk

/-- Python `os.path.basename` (POSIX): the part after the last slash. -/
def pyBasename (p : String) : String :=
  String.mk (p.toList.reverse.takeWhile (fun c => c ≠ '/')).reverse

/-- Python `os.path.dirname` (POSIX): the part before the last slash,
with trailing slashes stripped unless the head is all slashes. -/
def pyDirname (p : String) : String :=
  let head := (p.toList.reverse.dropWhile (fun c => c ≠ '/')).reverse
  if head.all (fun c => c = '/') then String.mk head
  else String.mk (head.reverse.dropWhile (fun c => c = '/')).reverse

/-- Python `p.rstrip('/\\')` as used in `process_directory`. -/
def rstripSlashes (p : String) : String :=
  String.mk (p.toList.reverse.dropWhile (fun c => c = '/' ∨ c = '\\')).reverse

/-- Python `os.path.join(a, b)` (POSIX, two arguments). -/
def pyJoin (a b : String) : String :=
  if pyStartsWithChar b '/' then b
  else if a = "" ∨ a.toList.getLast? = some '/' then a ++ b
  else a ++ "/" ++ b

/-- Python `os.path.splitext` (POSIX): split off the last dot-suffix of
the basename, unless every character before it in the basename is a dot. -/
def pySplitext (p : String) : String × String :=
  let cs := p.toList
  let nameLen := (cs.reverse.takeWhile (fun c => c ≠ '/')).length
  let name := cs.drop (cs.length - nameLen)
  let rest := name.drop (name.takeWhile (fun c => c = '.')).length
  if rest.contains '.' then
    let extLen := (rest.reverse.takeWhile (fun c => c ≠ '.')).length + 1
    (String.mk (cs.take (cs.length - extLen)), String.mk (cs.drop (cs.length - extLen)))
  else (p, "")

/-! ## `calculate_position` (watermark.py lines 48-72) -/

/-- The fixed margin `padding = 20` of `calculate_position`. -/
def padding : Int := 20

/-- The `position_map` dict literal of `calculate_position`, in source
order. -/
def position_map (img_width img_height text_width text_height : Int) :
    List (String × (Int × Int)) :=
  [ ("top-left", (padding, padding))
  , ("top-right", (img_width - text_width - padding, padding))
  , ("bottom-left", (padding, img_height - text_height - padding))
  , ("bottom-right",
      (img_width - text_width - padding, img_height - text_height - padding))
  , ("center",
      ((img_width - text_width).fdiv 2, (img_height - text_height).fdiv 2)) ]

/-- `calculate_position(img_width, img_height, text_width, text_height,
position)`: `position_map.get(position, position_map["bottom-right"])`.
The final `(0, 0)` branch is unreachable since `"bottom-right"` is a key. -/
def calculate_position (img_width img_height text_width text_height : Int)
    (position : String) : Int × Int :=
  let m := position_map img_width img_height text_width text_height
  match m.find? (fun kv => kv.1 == position) with
  | some kv => kv.2
  | none =>
    match m.find? (fun kv => kv.1 == "bottom-right") with
    | some kv => kv.2
    | none => (0, 0)

/-! ## `get_exif_date` (watermark.py lines 19-46) -/

/-- Outcome of `exifread.process_file` on one image: either the open or
the parse raised (any exception), or a tag dictionary, modelled as an
association list from tag name to the tag's string rendering. -/
inductive ExifRead where
  | fail
  | ok (tags : List (String × String))
deriving DecidableEq

/-- Dictionary membership/lookup on the tag association list. -/
def lookupTag (tags : List (String × String)) (k : String) : Option String :=
  (tags.find? (fun kv => kv.1 == k)).map (fun kv => kv.2)

/-- `get_exif_date`: prefer `EXIF DateTimeOriginal`, then `Image
DateTime`; keep `date_str.split()[0]` (the date part).  An `IndexError`
from `[0]` on a whitespace-only value, like any exception, is caught by
the surrounding `try` and yields `None`, modelled by `List.head?`. -/
def get_exif_date (r : ExifRead) : Option String :=
  match r with
  | .fail => none
  | .ok tags =>
    match lookupTag tags "EXIF DateTimeOriginal" with
    | some date_str => (pySplit date_str).head?
    | none =>
      match lookupTag tags "Image DateTime" with
      | some date_str => (pySplit date_str).head?
      | none => none

/-! ## `parse_color` (watermark.py lines 215-261) -/

/-- The `color_map` dict literal of `parse_color`, in source order. -/
def color_map : List (String × (Nat × Nat × Nat)) :=
  [ ("black", (0, 0, 0))
  , ("white", (255, 255, 255))
  , ("red", (255, 0, 0))
  , ("green", (0, 128, 0))
  , ("blue", (0, 0, 255))
  , ("yellow", (255, 255, 0))
  , ("cyan", (0, 255, 255))
  , ("magenta", (255, 0, 255))
  , ("gray", (128, 128, 128))
  , ("grey", (128, 128, 128))
  , ("orange", (255, 165, 0))
  , ("purple", (128, 0, 128))
  , ("pink", (255, 192, 203))
  , ("brown", (165, 42, 42)) ]

/-- Lookup in `color_map`. -/
def lookupColor (k : String) : Option (Nat × Nat × Nat) :=
  (color_map.find? (fun kv => kv.1 == k)).map (fun kv => kv.2)

/-- Hexadecimal digit test, as accepted by `#RRGGBB` parsing. -/
def isHexDig (c : Char) : Bool :=
  decide (('0' ≤ c ∧ c ≤ '9') ∨ ('a' ≤ c ∧ c ≤ 'f') ∨ ('A' ≤ c ∧ c ≤ 'F'))

/-- Numeric value of a hexadecimal digit. -/
def hexVal (c : Char) : Nat :=
  if '0' ≤ c ∧ c ≤ '9' then c.toNat - '0'.toNat
  else if 'a' ≤ c ∧ c ≤ 'f' then c.toNat - 'a'.toNat + 10
  else if 'A' ≤ c ∧ c ≤ 'F' then c.toNat - 'A'.toNat + 10
  else 0

/-- Value of a two-digit hexadecimal byte. -/
def hexByte (hi lo : Char) : Nat := 16 * hexVal hi + hexVal lo

/-- Modelled from the spec: `PIL.ImageColor.getrgb`, the external library
call `parse_color` delegates to, is not part of this repository.  Per the
spec's Color Resolver contract it parses a `#`-prefixed string as exactly
6 hex digits into `(R, G, B)` and fails (raises `ValueError`) on any
malformed hex and on strings that are not a recognized color syntax;
library-recognized syntaxes beyond `#RRGGBB` are not modelled. -/
def getrgb (s : String) : Option (Nat × Nat × Nat) :=
  if pyStartsWithChar s '#' then
    let rest := s.toList.drop 1
    if rest.length = 6 ∧ rest.all isHexDig then
      some (hexByte (rest.getD 0 ' ') (rest.getD 1 ' '),
            hexByte (rest.getD 2 ' ') (rest.getD 3 ' '),
            hexByte (rest.getD 4 ' ') (rest.getD 5 ' '))
    else none
  else none

/-- `parse_color(color_str)`: predefined name (lower-cased) first, then
`#`-hex via the library, then a last library attempt; `ValueError` is
modelled as `Except.error` carrying the message kind. -/
def parse_color (color_str : String) : Except String (Nat × Nat × Nat) :=
  match lookupColor (pyLower color_str) with
  | some c => .ok c
  | none =>
    if pyStartsWithChar color_str '#' then
      match getrgb color_str with
      | some c => .ok c
      | none => .error ("invalid hex color: " ++ color_str)
    else
      match getrgb color_str with
      | some c => .ok c
      | none => .error ("unsupported color: " ++ color_str)

/-! ## `process_directory` (watermark.py lines 145-213) -/

/-- The file system and library effects `process_directory` consumes,
passed explicitly: `os.path.exists`, `os.path.isfile`, `os.listdir`,
whether `os.makedirs` succeeds, the `exifread` outcome per path (fed to
`get_exif_date`), `datetime.now().strftime("%Y:%m:%d")`, and whether
`add_watermark_to_image` succeeds (raises nothing) for a given
input/output path pair. -/
structure FS where
  pathExists : String → Bool
  isFile : String → Bool
  listdir : String → List String
  makedirsOk : String → Bool
  exif : String → ExifRead
  nowDate : String
  renderOk : String → String → Bool

/-- One watermark job that completed: input path, output path, and the
text drawn. -/
structure Job where
  src : String
  out : String
  text : String
deriving DecidableEq

/-- Result of a `process_directory` run: the returned bool, the
directories created by `os.makedirs`, and the successfully written
outputs in processing order. -/
structure RunResult where
  success : Bool
  createdDirs : List String
  outputs : List Job
deriving DecidableEq

/-- The `image_extensions` tuple (watermark.py line 176). -/
def image_extensions : List String :=
  [".jpg", ".jpeg", ".png", ".tiff", ".bmp", ".gif", ".webp"]

/-- `file_path.lower().endswith(image_extensions)` (line 190). -/
def isImageFile (file_path : String) : Bool :=
  image_extensions.any (fun e => pyEndsWith (pyLower file_path) e)

/-- `base_dir` (line 164): the containing directory for a file input,
the directory itself otherwise. -/
def baseDir (fs : FS) (input_path : String) : String :=
  if fs.isFile input_path then pyDirname input_path else input_path

/-- `output_dir` (lines 165-166): `<base_dir>/<dir_name>_watermark`. -/
def outputDir (fs : FS) (input_path : String) : String :=
  pyJoin (baseDir fs input_path)
    (pyBasename (rstripSlashes (baseDir fs input_path)) ++ "_watermark")

/-- `files` (lines 179-183): the single file, or the immediate file
entries of the directory. -/
def candidateFiles (fs : FS) (input_path : String) : List String :=
  if fs.isFile input_path then [input_path]
  else (fs.listdir input_path).filterMap (fun f =>
    if fs.isFile (pyJoin input_path f) then some (pyJoin input_path f) else none)

/-- The output path built for `file_path` (lines 199-202):
`<output_dir>/<stem>_watermark<ext>`. -/
def outPathFor (output_dir file_path : String) : String :=
  pyJoin output_dir
    ((pySplitext (pyBasename file_path)).1 ++ "_watermark"
      ++ (pySplitext (pyBasename file_path)).2)

/-- The watermark text chosen for `file_path` (lines 194-197): the
`get_exif_date` result, or, when that is falsy (`None` or the empty
string), `datetime.now().strftime("%Y:%m:%d")`. -/
def dateText (fs : FS) (file_path : String) : String :=
  match get_exif_date (fs.exif file_path) with
  | some s => if s = "" then fs.nowDate else s
  | none => fs.nowDate

/-- One iteration of the per-file loop (lines 187-210): skip non-image
extensions; fall back to the current date when `get_exif_date` gives a
falsy result; attempt the watermark; an exception anywhere in the
iteration is caught and yields no output (`continue`). -/
def processFile (fs : FS) (output_dir file_path : String) : Option Job :=
  if ¬ isImageFile file_path then none
  else if fs.renderOk file_path (outPathFor output_dir file_path) then
    some { src := file_path, out := outPathFor output_dir file_path
         , text := dateText fs file_path }
  else none

/-- `process_directory(input_path, font_size, color, position)`:
existence check, output-directory creation, candidate enumeration, the
per-file loop with error isolation, and the final
`processed_count > 0` result.  `font_size`, `color` and `position` do
not influence control flow or paths and are omitted from the model. -/
def process_directory (fs : FS) (input_path : String) : RunResult :=
  if ¬ fs.pathExists input_path then
    { success := false, createdDirs := [], outputs := [] }
  else if ¬ fs.makedirsOk (outputDir fs input_path) then
    { success := false, createdDirs := [], outputs := [] }
  else
    let outputs := (candidateFiles fs input_path).filterMap
      (processFile fs (outputDir fs input_path))
    { success := outputs.length > 0
    , createdDirs := [outputDir fs input_path]
    , outputs := outputs }

/-! ## Theorems -/

/-- The five anchor names accepted by the CLI. -/
def anchorNames : List String :=
  ["top-left", "top-right", "bottom-left", "bottom-right", "center"]

lemma calc_top_left (W H w h : Int) :
    calculate_position W H w h "top-left" = (padding, padding) := rfl

lemma calc_top_right (W H w h : Int) :
    calculate_position W H w h "top-right" = (W - w - padding, padding) := rfl

lemma calc_bottom_left (W H w h : Int) :
    calculate_position W H w h "bottom-left" = (padding, H - h - padding) := rfl

lemma calc_bottom_right (W H w h : Int) :
    calculate_position W H w h "bottom-right" =
      (W - w - padding, H - h - padding) := rfl

lemma calc_center (W H w h : Int) :
    calculate_position W H w h "center" = ((W - w).fdiv 2, (H - h).fdiv 2) := rfl

lemma calc_default (W H w h : Int) (p : String) (hp : p ∉ anchorNames) :
    calculate_position W H w h p = (W - w - padding, H - h - padding) := by
  simp only [anchorNames, List.mem_cons, List.mem_singleton, not_or,
    List.not_mem_nil, not_false_iff, and_true] at hp
  obtain ⟨h1, h2, h3, h4, h5⟩ := hp
  have e1 : ("top-left" == p) = false := beq_eq_false_iff_ne.mpr (Ne.symm h1)
  have e2 : ("top-right" == p) = false := beq_eq_false_iff_ne.mpr (Ne.symm h2)
  have e3 : ("bottom-left" == p) = false := beq_eq_false_iff_ne.mpr (Ne.symm h3)
  have e4 : ("bottom-right" == p) = false := beq_eq_false_iff_ne.mpr (Ne.symm h4)
  have e5 : ("center" == p) = false := beq_eq_false_iff_ne.mpr (Ne.symm h5)
  simp [calculate_position, position_map, List.find?, e1, e2, e3, e4, e5]

/-- C5 counterexample: the claim asserts truncating integer division for
the `center` anchor, but Python `//` floors; at image 10×10 and text
11×11 truncating division predicts `(0, 0)` while `calculate_position`
returns `(-1, -1)`. -/
theorem C5_counterexample :
    calculate_position 10 10 11 11 "center" ≠
      (Int.tdiv (10 - 11) 2, Int.tdiv (10 - 11) 2) := by decide

/-- C5 (amended): `calculate_position` is a pure total function; with
`padding = 20` it returns the four documented corner offsets, the center
uses floor (not truncating) integer division, and every anchor outside
the five named ones yields the bottom-right result. -/
theorem C5_formulas (W H w h : Int) :
    calculate_position W H w h "top-left" = (20, 20) ∧
    calculate_position W H w h "top-right" = (W - w - 20, 20) ∧
    calculate_position W H w h "bottom-left" = (20, H - h - 20) ∧
    calculate_position W H w h "bottom-right" = (W - w - 20, H - h - 20) ∧
    calculate_position W H w h "center" = ((W - w).fdiv 2, (H - h).fdiv 2) ∧
    (∀ p : String, p ∉ anchorNames →
      calculate_position W H w h p = calculate_position W H w h "bottom-right") := by
  refine ⟨calc_top_left W H w h, calc_top_right W H w h, calc_bottom_left W H w h,
    calc_bottom_right W H w h, calc_center W H w h, fun p hp => ?_⟩
  rw [calc_default W H w h p hp, calc_bottom_right]

/-- Witness for `C5_formulas` at image 100×80, text 30×10, and the
unrecognized anchor `"diagonal"`. -/
theorem C5_formulas_witness :
    calculate_position 100 80 30 10 "top-left" = (20, 20) ∧
    calculate_position 100 80 30 10 "center" = (35, 35) ∧
    calculate_position 100 80 30 10 "diagonal" = (50, 50) := by
  have h := C5_formulas 100 80 30 10
  refine ⟨h.1, ?_, ?_⟩
  · rw [h.2.2.2.2.1]; decide
  · rw [h.2.2.2.2.2 "diagonal" (by decide), h.2.2.2.1]; decide

/-- C1 counterexample: `"top-right"` is among the five anchors and image
100×100 dominates text 100×100, yet the computed x-coordinate is
`100 - 100 - 20 = -20 < 0`, outside `[0, image_width - text_width]`. -/
theorem C1_counterexample :
    "top-right" ∈ anchorNames ∧
    (100 : Int) ≥ 100 ∧ (100 : Int) ≥ 100 ∧
    ¬ (0 ≤ (calculate_position 100 100 100 100 "top-right").1 ∧
        (calculate_position 100 100 100 100 "top-right").1 ≤ 100 - 100 ∧
        0 ≤ (calculate_position 100 100 100 100 "top-right").2 ∧
        (calculate_position 100 100 100 100 "top-right").2 ≤ 100 - 100) := by
  decide

/-- C1 (amended): for every named anchor, whenever each image dimension
exceeds the corresponding text dimension by at least the 20-pixel
padding, `calculate_position` returns coordinates within
`[0, image_width - text_width] × [0, image_height - text_height]`. -/
theorem C1_position_in_bounds (W H w h : Int) (p : String) (hp : p ∈ anchorNames)
    (hw : w + 20 ≤ W) (hh : h + 20 ≤ H) :
    0 ≤ (calculate_position W H w h p).1 ∧
    (calculate_position W H w h p).1 ≤ W - w ∧
    0 ≤ (calculate_position W H w h p).2 ∧
    (calculate_position W H w h p).2 ≤ H - h := by
  have h2 : (0:Int) ≤ 2 := by norm_num
  simp only [anchorNames, List.mem_cons, List.mem_singleton,
    List.not_mem_nil, or_false] at hp
  rcases hp with rfl | rfl | rfl | rfl | rfl
  · rw [calc_top_left]; simp only [padding]; constructor <;> [omega; skip]
    constructor <;> [omega; skip]; constructor <;> omega
  · rw [calc_top_right]; simp only [padding]
    refine ⟨by omega, by omega, by omega, by omega⟩
  · rw [calc_bottom_left]; simp only [padding]
    refine ⟨by omega, by omega, by omega, by omega⟩
  · rw [calc_bottom_right]; simp only [padding]
    refine ⟨by omega, by omega, by omega, by omega⟩
  · rw [calc_center]
    rw [Int.fdiv_eq_ediv (W - w) h2, Int.fdiv_eq_ediv (H - h) h2]
    refine ⟨by omega, by omega, by omega, by omega⟩

/-- Witness for `C1_position_in_bounds`: anchor `"top-right"`, image
100×80, text 30×10. -/
theorem C1_position_in_bounds_witness :
    0 ≤ (calculate_position 100 80 30 10 "top-right").1 ∧
    (calculate_position 100 80 30 10 "top-right").1 ≤ 100 - 30 ∧
    0 ≤ (calculate_position 100 80 30 10 "top-right").2 ∧
    (calculate_position 100 80 30 10 "top-right").2 ≤ 80 - 10 :=
  C1_position_in_bounds 100 80 30 10 "top-right" (by decide) (by decide) (by decide)

lemma color_map_keys_lower : ∀ kv ∈ color_map, pyLower kv.1 = kv.1 := by decide

lemma lookupColor_lower {k : String} {c : Nat × Nat × Nat}
    (h : lookupColor k = some c) : pyLower k = k := by
  unfold lookupColor at h
  cases hf : color_map.find? (fun kv => kv.1 == k) with
  | none => rw [hf] at h; simp at h
  | some kv =>
    have hk : kv.1 = k := by simpa using List.find?_some hf
    have hl : pyLower kv.1 = kv.1 :=
      color_map_keys_lower kv (List.mem_of_find?_eq_some hf)
    rw [← hk, hl]

/-- C7: `parse_color` resolves `"white"` to `(255,255,255)` and
`"#FF0000"` to `(255,0,0)`; named-color lookup is case-insensitive (any
string whose lower-casing is a table key resolves like its lower-cased
form); and `"not-a-color"` raises `ValueError` (InvalidColorError). -/
theorem C7_resolve_color :
    parse_color "white" = Except.ok (255, 255, 255) ∧
    parse_color "#FF0000" = Except.ok (255, 0, 0) ∧
    (∀ (s : String) (c : Nat × Nat × Nat), lookupColor (pyLower s) = some c →
      parse_color s = Except.ok c ∧ parse_color (pyLower s) = Except.ok c) ∧
    (∃ e, parse_color "not-a-color" = Except.error e) := by
  refine ⟨rfl, rfl, ?_, ⟨"unsupported color: not-a-color", rfl⟩⟩
  intro s c h
  have h2 : pyLower (pyLower s) = pyLower s := lookupColor_lower h
  constructor
  · simp [parse_color, h]
  · simp [parse_color, h2, h]

/-- Witness for `C7_resolve_color`: the case-insensitivity conjunct at
`"WHITE"`. -/
theorem C7_resolve_color_witness :
    parse_color "WHITE" = Except.ok (255, 255, 255) ∧
    parse_color (pyLower "WHITE") = Except.ok (255, 255, 255) :=
  C7_resolve_color.2.2.1 "WHITE" (255, 255, 255) (by decide)

/-- C8: for a string that is no recognized color name and starts with
`#`, `parse_color` succeeds exactly when the remainder is 6 hexadecimal
digits, in which case it returns the parsed `(R,G,B)` triple; otherwise
(wrong length or non-hex characters) it raises `ValueError`
(InvalidColorError) from the hex branch. -/
theorem C8_hex_colors (s : String) (hname : lookupColor (pyLower s) = none)
    (hhash : pyStartsWithChar s '#' = true) :
    ((∃ c, parse_color s = Except.ok c) ↔
      ((s.toList.drop 1).length = 6 ∧ (s.toList.drop 1).all isHexDig = true)) ∧
    (((s.toList.drop 1).length = 6 ∧ (s.toList.drop 1).all isHexDig = true) →
      parse_color s = Except.ok
        (hexByte ((s.toList.drop 1).getD 0 ' ') ((s.toList.drop 1).getD 1 ' '),
         hexByte ((s.toList.drop 1).getD 2 ' ') ((s.toList.drop 1).getD 3 ' '),
         hexByte ((s.toList.drop 1).getD 4 ' ') ((s.toList.drop 1).getD 5 ' '))) ∧
    (¬ ((s.toList.drop 1).length = 6 ∧ (s.toList.drop 1).all isHexDig = true) →
      parse_color s = Except.error ("invalid hex color: " ++ s)) := by
  have hg : getrgb s =
      (if (s.toList.drop 1).length = 6 ∧ (s.toList.drop 1).all isHexDig = true then
        some (hexByte ((s.toList.drop 1).getD 0 ' ') ((s.toList.drop 1).getD 1 ' '),
              hexByte ((s.toList.drop 1).getD 2 ' ') ((s.toList.drop 1).getD 3 ' '),
              hexByte ((s.toList.drop 1).getD 4 ' ') ((s.toList.drop 1).getD 5 ' '))
      else none) := by
    unfold getrgb
    rw [if_pos hhash]
  have hstep : parse_color s =
      (match getrgb s with
        | some c => Except.ok c
        | none => Except.error ("invalid hex color: " ++ s)) := by
    unfold parse_color
    rw [hname, if_pos hhash]
  by_cases hc : (s.toList.drop 1).length = 6 ∧ (s.toList.drop 1).all isHexDig = true
  · rw [if_pos hc] at hg
    have hp : parse_color s = Except.ok
        (hexByte ((s.toList.drop 1).getD 0 ' ') ((s.toList.drop 1).getD 1 ' '),
         hexByte ((s.toList.drop 1).getD 2 ' ') ((s.toList.drop 1).getD 3 ' '),
         hexByte ((s.toList.drop 1).getD 4 ' ') ((s.toList.drop 1).getD 5 ' ')) := by
      rw [hstep, hg]
    exact ⟨⟨fun _ => hc, fun _ => ⟨_, hp⟩⟩, fun _ => hp, fun hn => absurd hc hn⟩
  · rw [if_neg hc] at hg
    have hp : parse_color s = Except.error ("invalid hex color: " ++ s) := by
      rw [hstep, hg]
    refine ⟨⟨fun hcok => ?_, fun h => absurd h hc⟩,
      fun h => absurd h hc, fun _ => hp⟩
    obtain ⟨c, hcok⟩ := hcok
    rw [hp] at hcok
    exact absurd hcok (by simp)

/-- Witness for `C8_hex_colors`: `"#ZZZZZZ"` (non-hex characters) fails. -/
theorem C8_hex_colors_witness :
    parse_color "#ZZZZZZ" = Except.error ("invalid hex color: " ++ "#ZZZZZZ") :=
  (C8_hex_colors "#ZZZZZZ" (by decide) (by decide)).2.2 (by decide)

/-- C4: `get_exif_date` is total (never raises, returning an optional
result); on an unreadable or malformed metadata read it returns `none`;
otherwise it keeps the date portion (`split()[0]`) of
`EXIF DateTimeOriginal` when present, else of `Image DateTime` when
present, else returns `none`. -/
theorem C4_read_capture_date :
    get_exif_date ExifRead.fail = none ∧
    (∀ tags v, lookupTag tags "EXIF DateTimeOriginal" = some v →
      get_exif_date (ExifRead.ok tags) = (pySplit v).head?) ∧
    (∀ tags v, lookupTag tags "EXIF DateTimeOriginal" = none →
      lookupTag tags "Image DateTime" = some v →
      get_exif_date (ExifRead.ok tags) = (pySplit v).head?) ∧
    (∀ tags, lookupTag tags "EXIF DateTimeOriginal" = none →
      lookupTag tags "Image DateTime" = none →
      get_exif_date (ExifRead.ok tags) = none) := by
  refine ⟨rfl, ?_, ?_, ?_⟩ <;> intros <;> simp [get_exif_date, *]

/-- Witness for `C4_read_capture_date`: both tag orders on concrete tag
dictionaries. -/
theorem C4_read_capture_date_witness :
    get_exif_date (ExifRead.ok [("EXIF DateTimeOriginal", "2023:01:15 10:30:00")]) =
      some "2023:01:15" ∧
    get_exif_date (ExifRead.ok [("Image DateTime", "2024:02:20 08:00:00")]) =
      some "2024:02:20" := by
  constructor
  · rw [C4_read_capture_date.2.1 [("EXIF DateTimeOriginal", "2023:01:15 10:30:00")]
      "2023:01:15 10:30:00" (by decide)]
    decide
  · rw [C4_read_capture_date.2.2.1 [("Image DateTime", "2024:02:20 08:00:00")]
      "2024:02:20 08:00:00" (by decide) (by decide)]
    decide

lemma processFile_some {fs : FS} {od f : String} {j : Job}
    (h : processFile fs od f = some j) :
    j.src = f ∧ j.out = outPathFor od f ∧ isImageFile f = true := by
  unfold processFile at h
  by_cases himg : isImageFile f = true
  · rw [if_neg (not_not_intro himg)] at h
    by_cases hrd : fs.renderOk f (outPathFor od f) = true
    · rw [if_pos hrd] at h
      have hj := (Option.some_inj.mp h).symm
      subst hj
      exact ⟨by simp, by simp, himg⟩
    · rw [if_neg hrd] at h
      exact absurd h (by simp)
  · rw [if_pos himg] at h
    exact absurd h (by simp)

lemma mem_outputs {fs : FS} {inp : String} {j : Job}
    (hj : j ∈ (process_directory fs inp).outputs) :
    ∃ f ∈ candidateFiles fs inp,
      processFile fs (outputDir fs inp) f = some j := by
  unfold process_directory at hj
  split at hj
  · exact absurd hj (by simp)
  · split at hj
    · exact absurd hj (by simp)
    · exact List.mem_filterMap.mp hj

/-- C3: when the input path does not exist, `process_directory` reports
failure before touching the file system: no directory is created and no
output is produced. -/
theorem C3_missing_input (fs : FS) (input_path : String)
    (h : fs.pathExists input_path = false) :
    process_directory fs input_path =
      { success := false, createdDirs := [], outputs := [] } := by
  simp [process_directory, h]

/-- A file system with no paths at all, for exercising the missing-input
branch. -/
def fsEmpty : FS :=
  { pathExists := fun _ => false
  , isFile := fun _ => false
  , listdir := fun _ => []
  , makedirsOk := fun _ => true
  , exif := fun _ => ExifRead.fail
  , nowDate := "2026:10:12"
  , renderOk := fun _ _ => true }

/-- Witness for `C3_missing_input` on `fsEmpty`. -/
theorem C3_missing_input_witness :
    process_directory fsEmpty "/no/such/path" =
      { success := false, createdDirs := [], outputs := [] } :=
  C3_missing_input fsEmpty "/no/such/path" rfl

/-- C2: once the run is underway (input exists, output directory
created), the run is reported successful iff at least one file was
processed, and any candidate whose own processing succeeds contributes
its output regardless of failures among the other candidates — no
abort-on-first-failure. -/
theorem C2_error_isolation (fs : FS) (inp : String)
    (h1 : fs.pathExists inp = true)
    (h2 : fs.makedirsOk (outputDir fs inp) = true) :
    ((process_directory fs inp).success = true ↔
      0 < (process_directory fs inp).outputs.length) ∧
    (∀ f ∈ candidateFiles fs inp, ∀ j : Job,
      processFile fs (outputDir fs inp) f = some j →
      j ∈ (process_directory fs inp).outputs) := by
  have hrun : process_directory fs inp =
      { success := decide (0 < ((candidateFiles fs inp).filterMap
          (processFile fs (outputDir fs inp))).length)
      , createdDirs := [outputDir fs inp]
      , outputs := (candidateFiles fs inp).filterMap
          (processFile fs (outputDir fs inp)) } := by
    simp [process_directory, h1, h2]
  rw [hrun]
  exact ⟨by simp, fun f hf j hj => List.mem_filterMap.mpr ⟨f, hf, hj⟩⟩

/-- A directory with two candidate images where rendering the first
fails and the second succeeds. -/
def fsTwo : FS :=
  { pathExists := fun p => p == "/d"
  , isFile := fun p => p != "/d"
  , listdir := fun _ => ["bad.jpg", "good.jpg"]
  , makedirsOk := fun _ => true
  , exif := fun _ => ExifRead.fail
  , nowDate := "2026:10:12"
  , renderOk := fun f _ => f != "/d/bad.jpg" }

/-- Witness for `C2_error_isolation`: on `fsTwo` the failing first file
does not stop `good.jpg` from being processed, and the run is
successful. -/
theorem C2_error_isolation_witness :
    (⟨"/d/good.jpg", "/d/d_watermark/good_watermark.jpg", "2026:10:12"⟩ : Job) ∈
      (process_directory fsTwo "/d").outputs ∧
    ((process_directory fsTwo "/d").success = true ↔
      0 < (process_directory fsTwo "/d").outputs.length) := by
  have h := C2_error_isolation fsTwo "/d" (by decide) (by decide)
  exact ⟨h.2 "/d/good.jpg" (by decide) _ (by decide), h.1⟩

/-- C10: a candidate image for which `get_exif_date` yields no result is
still processed, with the current system date as the watermark text. -/
theorem C10_date_fallback (fs : FS) (inp f : String)
    (h1 : fs.pathExists inp = true)
    (h2 : fs.makedirsOk (outputDir fs inp) = true)
    (hf : f ∈ candidateFiles fs inp)
    (hext : isImageFile f = true)
    (hdate : get_exif_date (fs.exif f) = none)
    (hrender : fs.renderOk f (outPathFor (outputDir fs inp) f) = true) :
    (⟨f, outPathFor (outputDir fs inp) f, fs.nowDate⟩ : Job) ∈
      (process_directory fs inp).outputs := by
  have hpf : processFile fs (outputDir fs inp) f =
      some ⟨f, outPathFor (outputDir fs inp) f, fs.nowDate⟩ := by
    simp [processFile, dateText, hext, hdate, hrender]
  have hrun := C2_error_isolation fs inp h1 h2
  exact hrun.2 f hf _ hpf

/-- A single-file input whose EXIF read raises, so no capture date is
available. -/
def fsSingle : FS :=
  { pathExists := fun p => p == "/a/x.jpg"
  , isFile := fun p => p == "/a/x.jpg"
  , listdir := fun _ => []
  , makedirsOk := fun _ => true
  , exif := fun _ => ExifRead.fail
  , nowDate := "2026:10:12"
  , renderOk := fun _ _ => true }

/-- Witness for `C10_date_fallback` on `fsSingle`: the file is processed
and watermarked with the current date. -/
theorem C10_date_fallback_witness :
    (⟨"/a/x.jpg", outPathFor (outputDir fsSingle "/a/x.jpg") "/a/x.jpg",
        fsSingle.nowDate⟩ : Job) ∈
      (process_directory fsSingle "/a/x.jpg").outputs :=
  C10_date_fallback fsSingle "/a/x.jpg" "/a/x.jpg" (by decide) (by decide)
    (by decide) (by decide) (by decide) (by decide)

lemma pyBasename_no_slash (p : String) :
    ∀ c ∈ (pyBasename p).toList, c ≠ '/' := by
  intro c hc
  have hc' : c ∈ (p.toList.reverse.takeWhile (fun c => c ≠ '/')).reverse := hc
  rw [List.mem_reverse] at hc'
  simpa using List.mem_takeWhile_imp hc'

lemma pySplitext_cases (p : String) :
    (∃ n, (pySplitext p).1 = String.mk (p.toList.take n) ∧
      (pySplitext p).2 = String.mk (p.toList.drop n)) ∨
    pySplitext p = (p, "") := by
  unfold pySplitext
  dsimp only
  split
  · exact Or.inl ⟨_, rfl, rfl⟩
  · exact Or.inr rfl

lemma pySplitext_fst_chars {p : String} {c : Char}
    (h : c ∈ (pySplitext p).1.toList) : c ∈ p.toList := by
  rcases pySplitext_cases p with ⟨n, h1, _⟩ | hp
  · rw [h1] at h
    exact List.mem_of_mem_take h
  · rw [hp] at h
    exact h

lemma pySplitext_snd_chars {p : String} {c : Char}
    (h : c ∈ (pySplitext p).2.toList) : c ∈ p.toList := by
  rcases pySplitext_cases p with ⟨n, _, h2⟩ | hp
  · rw [h2] at h
    exact List.mem_of_mem_drop h
  · rw [hp] at h
    exact absurd h (List.not_mem_nil c)

/-- The output filename `<stem>_watermark<ext>` of a file contains no
path separator: it names an entry directly inside the output directory. -/
lemma outName_no_slash (f : String) :
    ∀ c ∈ ((pySplitext (pyBasename f)).1 ++ "_watermark"
      ++ (pySplitext (pyBasename f)).2).toList, c ≠ '/' := by
  intro c hc
  have hc' : c ∈ ((pySplitext (pyBasename f)).1 ++ "_watermark").data
      ++ (pySplitext (pyBasename f)).2.data := by
    rw [← String.data_append]; exact hc
  rw [String.data_append] at hc'
  rcases List.mem_append.mp hc' with h | h
  · rcases List.mem_append.mp h with h2 | h2
    · exact pyBasename_no_slash f c (pySplitext_fst_chars h2)
    · exact (by decide : ∀ x ∈ ("_watermark" : String).data, x ≠ '/') c h2
  · exact pyBasename_no_slash f c (pySplitext_snd_chars h)

lemma run_layout {fs : FS} {inp : String}
    (hne : (process_directory fs inp).outputs ≠ []) :
    (process_directory fs inp).createdDirs = [outputDir fs inp] := by
  by_cases h1 : fs.pathExists inp = true
  · by_cases h2 : fs.makedirsOk (outputDir fs inp) = true
    · simp [process_directory, h1, h2]
    · have h2' : fs.makedirsOk (outputDir fs inp) = false := by simpa using h2
      exact absurd (by simp [process_directory, h1, h2']) hne
  · have h1' : fs.pathExists inp = false := by simpa using h1
    exact absurd (by simp [process_directory, h1']) hne

/-- C6: every produced output belongs to a run whose only created
directory is the single per-run output directory
`<base>/<basename>_watermark` (`outputDir`), and its path is that
directory joined with `<stem>_watermark<ext>` of its input file — a
filename with no path separator, hence directly inside the directory. -/
theorem C6_output_layout (fs : FS) (inp : String) (j : Job)
    (hj : j ∈ (process_directory fs inp).outputs) :
    j.src ∈ candidateFiles fs inp ∧
    j.out = pyJoin (outputDir fs inp)
      ((pySplitext (pyBasename j.src)).1 ++ "_watermark"
        ++ (pySplitext (pyBasename j.src)).2) ∧
    (process_directory fs inp).createdDirs = [outputDir fs inp] ∧
    (∀ c ∈ ((pySplitext (pyBasename j.src)).1 ++ "_watermark"
      ++ (pySplitext (pyBasename j.src)).2).toList, c ≠ '/') := by
  obtain ⟨f, hf, hpf⟩ := mem_outputs hj
  obtain ⟨hsrc, hout, _⟩ := processFile_some hpf
  have hne : (process_directory fs inp).outputs ≠ [] := by
    intro he
    rw [he] at hj
    exact absurd hj (List.not_mem_nil j)
  refine ⟨?_, ?_, run_layout hne, ?_⟩
  · rw [hsrc]; exact hf
  · rw [hsrc, hout]; unfold outPathFor; rfl
  · rw [hsrc]; exact outName_no_slash f

/-- A directory holding three eligible images (one with an upper-case
extension) and one non-image file; every render succeeds. -/
def fsBatch : FS :=
  { pathExists := fun p => p == "/pics"
  , isFile := fun p => p != "/pics"
  , listdir := fun _ => ["a.jpg", "b.PNG", "c.webp", "notes.txt"]
  , makedirsOk := fun _ => true
  , exif := fun _ => ExifRead.ok [("EXIF DateTimeOriginal", "2023:01:15 10:30:00")]
  , nowDate := "2026:10:12"
  , renderOk := fun _ _ => true }

/-- Witness for `C6_output_layout` at the first output of the `fsBatch`
run. -/
theorem C6_output_layout_witness :
    (⟨"/pics/a.jpg", "/pics/pics_watermark/a_watermark.jpg", "2023:01:15"⟩ : Job).src
      ∈ candidateFiles fsBatch "/pics" ∧
    (⟨"/pics/a.jpg", "/pics/pics_watermark/a_watermark.jpg", "2023:01:15"⟩ : Job).out
      = pyJoin (outputDir fsBatch "/pics")
        ((pySplitext (pyBasename (⟨"/pics/a.jpg", "/pics/pics_watermark/a_watermark.jpg",
            "2023:01:15"⟩ : Job).src)).1 ++ "_watermark"
          ++ (pySplitext (pyBasename (⟨"/pics/a.jpg", "/pics/pics_watermark/a_watermark.jpg",
            "2023:01:15"⟩ : Job).src)).2) ∧
    (process_directory fsBatch "/pics").createdDirs = [outputDir fsBatch "/pics"] ∧
    (∀ c ∈ ((pySplitext (pyBasename (⟨"/pics/a.jpg", "/pics/pics_watermark/a_watermark.jpg",
        "2023:01:15"⟩ : Job).src)).1 ++ "_watermark"
      ++ (pySplitext (pyBasename (⟨"/pics/a.jpg", "/pics/pics_watermark/a_watermark.jpg",
        "2023:01:15"⟩ : Job).src)).2).toList, c ≠ '/') :=
  C6_output_layout fsBatch "/pics"
    ⟨"/pics/a.jpg", "/pics/pics_watermark/a_watermark.jpg", "2023:01:15"⟩ (by decide)

/-- C9: outputs only ever come from candidates passing the
case-insensitive extension allow-list (jpg, jpeg, png, tiff, bmp, gif,
webp); concretely, on a directory of three eligible images and one
non-image file the run creates one output directory, produces three
outputs, and succeeds. -/
theorem C9_extension_filter :
    (∀ (fs : FS) (inp : String) (j : Job),
      j ∈ (process_directory fs inp).outputs → isImageFile j.src = true) ∧
    (process_directory fsBatch "/pics").createdDirs.length = 1 ∧
    (process_directory fsBatch "/pics").outputs.length = 3 ∧
    (process_directory fsBatch "/pics").success = true := by
  refine ⟨?_, by decide, by decide, by decide⟩
  intro fs inp j hj
  obtain ⟨f, _, hpf⟩ := mem_outputs hj
  obtain ⟨hsrc, _, himg⟩ := processFile_some hpf
  rw [hsrc]
  exact himg

/-- Witness for `C9_extension_filter`: the filter conjunct at a concrete
output of the `fsBatch` run. -/
theorem C9_extension_filter_witness :
    isImageFile (⟨"/pics/a.jpg", "/pics/pics_watermark/a_watermark.jpg",
      "2023:01:15"⟩ : Job).src = true :=
  C9_extension_filter.1 fsBatch "/pics"
    ⟨"/pics/a.jpg", "/pics/pics_watermark/a_watermark.jpg", "2023:01:15"⟩ (by decide)

end Watermark
